import Mathlib

/-!
Shallow embedding of the Migration Readiness Scoring Engine of
`src/uc5_migration_readiness.py` (class `MigrationReadinessAssessor`).

Catalog rows fetched over the database connection are modelled as explicit
input lists; Python float arithmetic is modelled over `ℚ` (the constants
`0.3`, `/10`, `/5` are exact rationals here).
-/

namespace UC5

/-- The seven object counts fetched by `assess_schema_complexity`
(one row of the counting query). -/
structure SchemaCounts where
  tables : ℕ
  views : ℕ
  stored_procedures : ℕ
  triggers : ℕ
  user_defined_types : ℕ
  xml_schemas : ℕ
  clr_assemblies : ℕ
deriving Repr, DecidableEq

/-- `categorize_complexity` (lines 71-79). -/
def categorize_complexity (score : ℚ) : String :=
  if score < 30 then "LOW"
  else if score < 60 then "MEDIUM"
  else if score < 80 then "HIGH"
  else "VERY_HIGH"

/-- The Python local `complexity_score` of `assess_schema_complexity` after
the five `+=` lines (59-63), before the final `min(_, 100)` clamp. -/
def complexity_sum (c : SchemaCounts) : ℚ :=
  min ((c.tables : ℚ) / 10) 20
  + min ((c.stored_procedures : ℚ) / 5) 25
  + min ((c.triggers : ℚ) * 5) 15
  + min ((c.user_defined_types : ℚ) * 10) 20
  + min ((c.clr_assemblies : ℚ) * 20) 20

/-- Result dict of `assess_schema_complexity` (lines 65-69). -/
structure ComplexityResult where
  complexity_score : ℚ
  complexity_level : String
  details : SchemaCounts

/-- `assess_schema_complexity` (lines 34-69): the reported score is clamped,
the reported level is computed from the pre-clamp sum. -/
def assess_schema_complexity (c : SchemaCounts) : ComplexityResult :=
  { complexity_score := min (complexity_sum c) 100
  , complexity_level := categorize_complexity (complexity_sum c)
  , details := c }

/-- Does the char list `hay` start with the char list `needle`? -/
def strStarts : List Char → List Char → Bool
  | _, [] => true
  | [], _ :: _ => false
  | a :: as, b :: bs => a == b && strStarts as bs

/-- Does the char list `hay` contain `needle` as a contiguous run? -/
def strHas : List Char → List Char → Bool
  | [], needle => strStarts [] needle
  | a :: t, needle => strStarts (a :: t) needle || strHas t needle

/-- Python `needle in hay` on strings (substring test). -/
def containsStr (hay needle : String) : Bool :=
  strHas hay.data needle.data

/-- Python `str.upper()` (all inputs here are ASCII). -/
def pyUpper (s : String) : String :=
  String.mk (s.data.map Char.toUpper)

/-- One row of the procedure query of `analyze_stored_procedures`
(lines 83-91); `definition` is `None` when `sys.sql_modules` has no row. -/
structure ProcRow where
  name : String
  definition : Option String
  create_date : String
  modify_date : String

/-- One entry of the `sp_analysis` list (lines 125-131). -/
structure ProcFinding where
  name : String
  created : String
  modified : String
  issues : List String
  complexity : String
deriving Repr, DecidableEq

/-- The six pattern tests of `analyze_stored_procedures` (lines 100-122),
in source order: matched flag, issue string appended, counter key bumped. -/
def procChecks (sp_def : String) : List (Bool × String × String) :=
  [ (containsStr sp_def "CURSOR",
      "Uses cursors (may need refactoring)", "cursors")
  , (containsStr sp_def "RAISERROR",
      "Uses RAISERROR (PostgreSQL uses RAISE)", "raiserror")
  , (containsStr sp_def "TRY" && containsStr sp_def "CATCH",
      "Uses TRY-CATCH (PostgreSQL uses EXCEPTION blocks)", "try_catch")
  , (containsStr sp_def "EXEC(" || containsStr sp_def "EXECUTE(",
      "Uses dynamic SQL", "dynamic_sql")
  , (containsStr (" " ++ sp_def ++ " ") " OUTPUT ",
      "Uses OUTPUT parameters", "output_params")
  , (containsStr sp_def "@@",
      "Uses global variables (@@)", "global_vars") ]

/-- The `issues` list accumulated for one procedure body. -/
def procIssues (sp_def : String) : List String :=
  ((procChecks sp_def).filter (fun c => c.1)).map (fun c => c.2.1)

/-- The `incompatible_features` keys bumped for one procedure body. -/
def procCats (sp_def : String) : List String :=
  ((procChecks sp_def).filter (fun c => c.1)).map (fun c => c.2.2)

/-- Line 130: `'HIGH' if len(issues) > 3 else 'MEDIUM'`. -/
def complexityTag (issues : List String) : String :=
  if issues.length > 3 then "HIGH" else "MEDIUM"

/-- `collections.Counter` increment of one key. -/
def bump : List (String × ℕ) → String → List (String × ℕ)
  | [], k => [(k, 1)]
  | (k0, n) :: t, k =>
      if k0 == k then (k0, n + 1) :: t else (k0, n) :: bump t k

/-- Counter increments for a list of keys, in order. -/
def bumpAll (c : List (String × ℕ)) (ks : List String) : List (String × ℕ) :=
  ks.foldl bump c

/-- Loop body of `analyze_stored_procedures` (lines 96-131) for one row:
`sp_def = (row.definition or '').upper()`, pattern tests bump the feature
counter, and a finding is appended only when `issues` is non-empty. -/
def spStep (st : List ProcFinding × List (String × ℕ)) (row : ProcRow) :
    List ProcFinding × List (String × ℕ) :=
  let sp_def := pyUpper (row.definition.getD "")
  let issues := procIssues sp_def
  let feats := bumpAll st.2 (procCats sp_def)
  if issues.isEmpty then (st.1, feats)
  else
    (st.1 ++ [{ name := row.name
              , created := row.create_date
              , modified := row.modify_date
              , issues := issues
              , complexity := complexityTag issues }], feats)

/-- Result dict of `analyze_stored_procedures` (lines 133-138). Both count
fields are `len(sp_analysis)` in the source, i.e. the flagged-only count. -/
structure SPAnalysis where
  total_procedures : ℕ
  procedures_with_issues : ℕ
  incompatible_features : List (String × ℕ)
  detailed_analysis : List ProcFinding

/-- `analyze_stored_procedures` (lines 81-138). -/
def analyze_stored_procedures (rows : List ProcRow) : SPAnalysis :=
  let st := rows.foldl spStep ([], [])
  { total_procedures := st.1.length
  , procedures_with_issues := st.1.length
  , incompatible_features := st.2
  , detailed_analysis := st.1 }

/-- One row of the column query of `analyze_data_types` (lines 142-156):
only the three fields the loop reads. -/
structure ColRow where
  table_name : String
  column_name : String
  data_type : String

/-- The static `type_mapping` dict (lines 158-179):
source type → (PostgreSQL type, alternate type, note). -/
def type_mapping : List (String × String × String × String) :=
  [ ("NVARCHAR", "VARCHAR", "TEXT", "Compatible with adjustments")
  , ("VARCHAR", "VARCHAR", "TEXT", "Direct compatibility")
  , ("INT", "INTEGER", "INT", "Direct compatibility")
  , ("BIGINT", "BIGINT", "BIGINT", "Direct compatibility")
  , ("SMALLINT", "SMALLINT", "SMALLINT", "Direct compatibility")
  , ("TINYINT", "SMALLINT", "SMALLINT", "PostgreSQL minimum is SMALLINT")
  , ("BIT", "BOOLEAN", "BOOLEAN", "Direct compatibility")
  , ("DATETIME", "TIMESTAMP", "TIMESTAMP", "Compatible")
  , ("DATETIME2", "TIMESTAMP", "TIMESTAMP", "Compatible")
  , ("DATE", "DATE", "DATE", "Direct compatibility")
  , ("TIME", "TIME", "TIME", "Direct compatibility")
  , ("DECIMAL", "DECIMAL", "NUMERIC", "Direct compatibility")
  , ("NUMERIC", "NUMERIC", "NUMERIC", "Direct compatibility")
  , ("MONEY", "DECIMAL(19,4)", "NUMERIC", "Requires explicit mapping")
  , ("UNIQUEIDENTIFIER", "UUID", "UUID", "Requires extension")
  , ("XML", "XML", "XML", "Direct compatibility")
  , ("VARBINARY", "BYTEA", "BYTEA", "Compatible")
  , ("IMAGE", "BYTEA", "BYTEA", "Deprecated in SQL Server, use BYTEA")
  , ("TEXT", "TEXT", "TEXT", "Deprecated in SQL Server")
  , ("NTEXT", "TEXT", "TEXT", "Deprecated in SQL Server") ]

/-- Python `type_mapping[data_type]` / `data_type not in type_mapping`. -/
def typeLookup (data_type : String) : Option (String × String × String) :=
  (type_mapping.find? (fun p => p.1 == data_type)).map (fun p => p.2)

/-- One entry of `compatibility_issues`: the HIGH dict (lines 189-195) has
an `issue` field, the MEDIUM dict (lines 197-204) has `postgresql_type`
and `note` fields; absent dict keys are `none`. -/
structure CompatIssue where
  table : String
  column : String
  type_name : String
  issue : Option String
  postgresql_type : Option String
  note : Option String
  severity : String
deriving Repr, DecidableEq

/-- The issue-emission decision of the loop body (lines 188-204) for one
column row, on `data_type = row.data_type.upper()`. -/
def classifyColumn (r : ColRow) : Option CompatIssue :=
  let data_type := pyUpper r.data_type
  match typeLookup data_type with
  | none =>
      some { table := r.table_name
           , column := r.column_name
           , type_name := data_type
           , issue := some "Unknown type mapping"
           , postgresql_type := none
           , note := none
           , severity := "HIGH" }
  | some m =>
      if containsStr m.2.2 "Requires" then
        some { table := r.table_name
             , column := r.column_name
             , type_name := data_type
             , issue := none
             , postgresql_type := some m.1
             , note := some m.2.2
             , severity := "MEDIUM" }
      else none

/-- Loop body of `analyze_data_types` (lines 184-204): the `type_usage`
counter is bumped for every row, an issue is appended when emitted. -/
def dtStep (st : List (String × ℕ) × List CompatIssue) (r : ColRow) :
    List (String × ℕ) × List CompatIssue :=
  let usage := bump st.1 (pyUpper r.data_type)
  match classifyColumn r with
  | some i => (usage, st.2 ++ [i])
  | none => (usage, st.2)

/-- Result dict of `analyze_data_types` (lines 206-210):
`total_columns_analyzed = sum(type_usage.values())`. -/
structure TypeAnalysis where
  type_usage : List (String × ℕ)
  compatibility_issues : List CompatIssue
  total_columns_analyzed : ℕ

/-- `analyze_data_types` (lines 140-210). -/
def analyze_data_types (rows : List ColRow) : TypeAnalysis :=
  let st := rows.foldl dtStep ([], [])
  { type_usage := st.1
  , compatibility_issues := st.2
  , total_columns_analyzed := (st.1.map (fun p => p.2)).sum }

/-- The parts of `assessment_results` read by `calculate_migration_score`
and `generate_migration_phases` (the index analysis is fetched by
`generate_assessment_report` but never read by either). -/
structure AssessmentInputs where
  schema_complexity : ComplexityResult
  stored_procedure_analysis : SPAnalysis
  data_type_analysis : TypeAnalysis

/-- `calculate_migration_score` (lines 412-438): start at 100, subtract the
four guarded penalties in order, clamp to a minimum of 0. -/
def calculate_migration_score (a : AssessmentInputs) : ℚ :=
  let score : ℚ := 100
  let score := score - a.schema_complexity.complexity_score * 0.3
  let score :=
    if a.stored_procedure_analysis.total_procedures > 0 then
      score - (a.stored_procedure_analysis.procedures_with_issues : ℚ)
        / (a.stored_procedure_analysis.total_procedures : ℚ) * 20
    else score
  let score :=
    if a.data_type_analysis.total_columns_analyzed > 0 then
      score - (a.data_type_analysis.compatibility_issues.length : ℚ)
        / (a.data_type_analysis.total_columns_analyzed : ℚ) * 15
    else score
  let score :=
    if a.schema_complexity.details.clr_assemblies > 0 then
      score - min ((a.schema_complexity.details.clr_assemblies : ℚ) * 10) 20
    else score
  max score 0

/-- The readiness tier expression of `generate_assessment_report`
(lines 464-469). -/
def readiness_level (readiness_score : ℚ) : String :=
  if readiness_score > 70 then "READY"
  else if readiness_score > 50 then "MODERATE"
  else if readiness_score > 30 then "CHALLENGING"
  else "REQUIRES_SIGNIFICANT_EFFORT"

/-- One entry of a phase plan (`generate_migration_phases`). -/
structure MigrationPhase where
  phase : ℕ
  name : String
  duration_estimate : String
  tasks : List String
deriving Repr, DecidableEq

/-- The branch of `generate_migration_phases` (lines 293-410) on the
extracted `complexity` string. -/
def phases_for_level (complexity : String) : List MigrationPhase :=
  if complexity == "LOW" then
    [ { phase := 1, name := "Schema Migration", duration_estimate := "1-2 weeks"
      , tasks := [ "Export schema using AWS SCT", "Convert data types"
                 , "Create tables in Aurora PostgreSQL", "Migrate indexes" ] }
    , { phase := 2, name := "Data Migration", duration_estimate := "1 week"
      , tasks := [ "Setup AWS DMS replication", "Full load migration"
                 , "Validate data integrity" ] }
    , { phase := 3, name := "Application Migration", duration_estimate := "1-2 weeks"
      , tasks := [ "Update connection strings", "Test application functionality"
                 , "Performance tuning" ] } ]
  else if complexity == "MEDIUM" || complexity == "HIGH" then
    [ { phase := 1, name := "Assessment & Planning", duration_estimate := "2-3 weeks"
      , tasks := [ "Detailed compatibility analysis", "Run Babelfish Compass"
                 , "Identify high-risk objects", "Plan mitigation strategies" ] }
    , { phase := 2, name := "Schema Conversion", duration_estimate := "3-4 weeks"
      , tasks := [ "Convert tables and views", "Migrate indexes and constraints"
                 , "Setup partitioning if needed", "Create sequences" ] }
    , { phase := 3, name := "Code Migration", duration_estimate := "4-6 weeks"
      , tasks := [ "Convert stored procedures to PL/pgSQL"
                 , "Rewrite incompatible constructs", "Migrate triggers"
                 , "Update dynamic SQL" ] }
    , { phase := 4, name := "Data Migration", duration_estimate := "2-3 weeks"
      , tasks := [ "Setup AWS DMS", "Perform initial full load"
                 , "Setup CDC for incremental sync", "Data validation" ] }
    , { phase := 5, name := "Testing & Validation", duration_estimate := "3-4 weeks"
      , tasks := [ "Functional testing", "Performance testing"
                 , "User acceptance testing", "Security validation" ] }
    , { phase := 6, name := "Cutover", duration_estimate := "1 week"
      , tasks := [ "Final data sync", "DNS/connection string updates"
                 , "Monitoring setup", "Rollback plan ready" ] } ]
  else
    [ { phase := 0, name := "Pre-Migration POC", duration_estimate := "4-6 weeks"
      , tasks := [ "Select representative subset", "Pilot migration"
                 , "Identify major blockers", "Refine approach" ] } ]

/-- `generate_migration_phases` (lines 290-410): reads only
`assessment_results['schema_complexity']['complexity_level']`. -/
def generate_migration_phases (assessment_results : AssessmentInputs) :
    List MigrationPhase :=
  phases_for_level assessment_results.schema_complexity.complexity_level

/-- The data the live connection would supply to one assessment run:
the `DB_ID` resolution outcome of `_db_exists` (lines 20-23) and the three
catalog row sets the analyzers iterate over. -/
structure Catalog where
  db_id_resolves : Bool
  counts : SchemaCounts
  proc_rows : List ProcRow
  col_rows : List ColRow

/-- `_db_exists` (lines 20-23): the `SELECT DB_ID(?)` probe returned a row
with a non-null value. -/
def db_exists (cat : Catalog) : Bool :=
  cat.db_id_resolves

/-- A single quote character, for the error-message text. -/
def sq : String := String.singleton (Char.ofNat 39)

/-- The final report assembled by `generate_assessment_report`
(lines 447-470); wall-clock timestamp and index analysis are omitted:
no computation here reads them. -/
structure AssessmentResult where
  database : String
  schema_complexity : ComplexityResult
  stored_procedure_analysis : SPAnalysis
  data_type_analysis : TypeAnalysis
  readiness_score : ℚ
  readiness_level : String
  migration_phases : List MigrationPhase

/-- `generate_assessment_report` (lines 440-483): raise `ValueError` when
`_db_exists` fails, otherwise run the analyzers and attach the readiness
score, tier and phase plan. -/
def generate_assessment_report (cat : Catalog) (database_name : String) :
    Except String AssessmentResult :=
  if !(db_exists cat) then
    Except.error ("Target database " ++ sq ++ database_name ++ sq
      ++ " does not exist on this server.")
  else
    let results : AssessmentInputs :=
      { schema_complexity := assess_schema_complexity cat.counts
      , stored_procedure_analysis := analyze_stored_procedures cat.proc_rows
      , data_type_analysis := analyze_data_types cat.col_rows }
    let readiness_score := calculate_migration_score results
    Except.ok
      { database := database_name
      , schema_complexity := results.schema_complexity
      , stored_procedure_analysis := results.stored_procedure_analysis
      , data_type_analysis := results.data_type_analysis
      , readiness_score := readiness_score
      , readiness_level := readiness_level readiness_score
      , migration_phases := generate_migration_phases results }

/-! Helper lemmas shared by the claim theorems. -/

/-- Each of the five capped contributions is at most its cap, and the caps
total 100, so the pre-clamp sum is at most 100. -/
theorem complexity_sum_le_100 (c : SchemaCounts) : complexity_sum c ≤ 100 := by
  have h1 : min ((c.tables : ℚ) / 10) 20 ≤ 20 := min_le_right _ _
  have h2 : min ((c.stored_procedures : ℚ) / 5) 25 ≤ 25 := min_le_right _ _
  have h3 : min ((c.triggers : ℚ) * 5) 15 ≤ 15 := min_le_right _ _
  have h4 : min ((c.user_defined_types : ℚ) * 10) 20 ≤ 20 := min_le_right _ _
  have h5 : min ((c.clr_assemblies : ℚ) * 20) 20 ≤ 20 := min_le_right _ _
  unfold complexity_sum
  linarith

/-- A `Counter` bump raises the sum of counts by exactly one. -/
theorem sum_bump (c : List (String × ℕ)) (k : String) :
    ((bump c k).map (fun p => p.2)).sum = ((c.map (fun p => p.2)).sum) + 1 := by
  induction c with
  | nil => simp [bump]
  | cons hd tl ih =>
    obtain ⟨k0, n⟩ := hd
    by_cases h : k0 == k
    · simp [bump, h]
      omega
    · simp [bump, h, ih]
      omega

/-- Fold invariant of `analyze_data_types`: every row bumps the usage
counter by one and appends at most one issue, so the issue count never
overtakes the counter sum. -/
theorem dt_issues_le_columns (rows : List ColRow) :
    ∀ (u : List (String × ℕ)) (iss : List CompatIssue),
      iss.length ≤ (u.map (fun p => p.2)).sum →
      ((rows.foldl dtStep (u, iss)).2).length
        ≤ (((rows.foldl dtStep (u, iss)).1).map (fun p => p.2)).sum := by
  induction rows with
  | nil =>
    intro u iss h
    simpa using h
  | cons r tl ih =>
    intro u iss h
    rw [List.foldl_cons]
    rcases hcl : classifyColumn r with _ | i
    · have hstep : dtStep (u, iss) r = (bump u (pyUpper r.data_type), iss) := by
        simp [dtStep, hcl]
      rw [hstep]
      refine ih _ _ ?_
      rw [sum_bump]
      omega
    · have hstep : dtStep (u, iss) r
          = (bump u (pyUpper r.data_type), iss ++ [i]) := by
        simp [dtStep, hcl]
      rw [hstep]
      refine ih _ _ ?_
      rw [sum_bump]
      simp only [List.length_append, List.length_cons, List.length_nil]
      omega

/-- In every `analyze_data_types` result, the number of compatibility
issues is at most the number of columns analyzed. -/
theorem analyze_data_types_issue_bound (rows : List ColRow) :
    (analyze_data_types rows).compatibility_issues.length
      ≤ (analyze_data_types rows).total_columns_analyzed := by
  simpa [analyze_data_types] using dt_issues_le_columns rows [] [] (by simp)

/-- A procedure row with a null definition leaves the loop state of
`analyze_stored_procedures` unchanged. -/
theorem spStep_null (st : List ProcFinding × List (String × ℕ))
    (name cd md : String) :
    spStep st
        { name := name, definition := none
        , create_date := cd, modify_date := md } = st := by
  have h1 : procIssues (pyUpper "") = [] := by decide
  have h2 : procCats (pyUpper "") = [] := by decide
  simp [spStep, h1, h2, bumpAll]

/-! Claim theorems. -/

/-- C3: for every assignment of non-negative integer object counts the
complexity score lies in [0, 100], and counts of 1000 in every scored
category yield exactly 100. -/
theorem c3_complexity_score_bounds :
    (∀ c : SchemaCounts,
        0 ≤ (assess_schema_complexity c).complexity_score ∧
        (assess_schema_complexity c).complexity_score ≤ 100) ∧
    (assess_schema_complexity
        { tables := 1000, views := 0, stored_procedures := 1000
        , triggers := 1000, user_defined_types := 1000
        , xml_schemas := 0, clr_assemblies := 1000 }).complexity_score = 100 := by
  constructor
  · intro c
    show 0 ≤ min (complexity_sum c) 100 ∧ min (complexity_sum c) 100 ≤ 100
    constructor
    · refine le_min ?_ (by norm_num)
      have h1 : (0:ℚ) ≤ min ((c.tables : ℚ) / 10) 20 :=
        le_min (by positivity) (by norm_num)
      have h2 : (0:ℚ) ≤ min ((c.stored_procedures : ℚ) / 5) 25 :=
        le_min (by positivity) (by norm_num)
      have h3 : (0:ℚ) ≤ min ((c.triggers : ℚ) * 5) 15 :=
        le_min (by positivity) (by norm_num)
      have h4 : (0:ℚ) ≤ min ((c.user_defined_types : ℚ) * 10) 20 :=
        le_min (by positivity) (by norm_num)
      have h5 : (0:ℚ) ≤ min ((c.clr_assemblies : ℚ) * 20) 20 :=
        le_min (by positivity) (by norm_num)
      unfold complexity_sum
      linarith
    · exact min_le_right _ _
  · norm_num [assess_schema_complexity, complexity_sum, min_def]

/-- C10: the reported complexity level always equals the tier function
applied to the reported (clamped) score, because the pre-clamp sum never
exceeds 100 and the clamp is therefore a no-op. -/
theorem c10_level_consistent_with_score :
    ∀ c : SchemaCounts,
      min (complexity_sum c) 100 = complexity_sum c ∧
      (assess_schema_complexity c).complexity_level
        = categorize_complexity ((assess_schema_complexity c).complexity_score) := by
  intro c
  have hmin : min (complexity_sum c) 100 = complexity_sum c :=
    min_eq_left (complexity_sum_le_100 c)
  refine ⟨hmin, ?_⟩
  show categorize_complexity (complexity_sum c)
      = categorize_complexity (min (complexity_sum c) 100)
  rw [hmin]

/-- C8: the phase plan generator is a pure function of the complexity
level; LOW yields 3 phases, MEDIUM and HIGH yield the identical 6-phase
list, VERY_HIGH yields 1 phase. -/
theorem c8_phase_plan_selection :
    (∀ a : AssessmentInputs,
        generate_migration_phases a
          = phases_for_level a.schema_complexity.complexity_level) ∧
    (phases_for_level "LOW").length = 3 ∧
    phases_for_level "MEDIUM" = phases_for_level "HIGH" ∧
    (phases_for_level "MEDIUM").length = 6 ∧
    (phases_for_level "VERY_HIGH").length = 1 := by
  exact ⟨fun a => rfl, by decide, by decide, by decide, by decide⟩

/-- C9: when the database name does not resolve, the assessment fails with
an error whose value is independent of every piece of snapshot data (no
analysis contributes), and no assessment result is produced. -/
theorem c9_missing_database_fails_fast :
    ∀ (counts : SchemaCounts) (procs : List ProcRow) (cols : List ColRow)
      (name : String),
      generate_assessment_report
          { db_id_resolves := false, counts := counts
          , proc_rows := procs, col_rows := cols } name
        = Except.error ("Target database " ++ sq ++ name ++ sq
            ++ " does not exist on this server.") := by
  intro counts procs cols name
  rfl

/-- C5: the per-procedure complexity tag is HIGH exactly when more than 3
issue categories matched and MEDIUM otherwise; a body matching only the
cursor and dynamic-SQL patterns yields exactly 2 issues and tag MEDIUM,
and a body matching all 6 categories yields tag HIGH. -/
theorem c5_complexity_tag :
    (∀ sp_def : String,
        (complexityTag (procIssues sp_def) = "HIGH"
          ↔ 3 < (procIssues sp_def).length) ∧
        (complexityTag (procIssues sp_def) = "MEDIUM"
          ↔ ¬ 3 < (procIssues sp_def).length)) ∧
    procIssues (pyUpper "declare c cursor for select 1 exec(@s)")
      = ["Uses cursors (may need refactoring)", "Uses dynamic SQL"] ∧
    complexityTag
        (procIssues (pyUpper "declare c cursor for select 1 exec(@s)"))
      = "MEDIUM" ∧
    (procIssues (pyUpper "cursor raiserror try catch exec( output @@x")).length
      = 6 ∧
    complexityTag
        (procIssues (pyUpper "cursor raiserror try catch exec( output @@x"))
      = "HIGH" := by
  refine ⟨fun d => ?_, by decide, by decide, by decide, by decide⟩
  by_cases h : 3 < (procIssues d).length
  · simp [complexityTag, h]
  · simp [complexityTag, h]

/-- C7: a procedure row whose definition is null matches no pattern,
produces no finding and leaves every feature counter untouched: the whole
analysis is identical to the analysis of the row list without it. -/
theorem c7_null_definition_contributes_nothing :
    ∀ (name cd md : String) (l1 l2 : List ProcRow),
      procIssues (pyUpper ((none : Option String).getD "")) = [] ∧
      analyze_stored_procedures
          (l1 ++ { name := name, definition := none
                 , create_date := cd, modify_date := md } :: l2)
        = analyze_stored_procedures (l1 ++ l2) := by
  intro name cd md l1 l2
  refine ⟨by decide, ?_⟩
  unfold analyze_stored_procedures
  rw [List.foldl_append, List.foldl_cons, spStep_null, ← List.foldl_append]

/-- C4: every column lands in exactly one of three cases: unmapped type
names yield a HIGH "Unknown type mapping" issue, mapped types whose note
carries the Requires marker yield a MEDIUM issue with the target type and
note, and every other mapped type yields no issue. -/
theorem c4_type_trichotomy :
    ∀ r : ColRow,
      (typeLookup (pyUpper r.data_type) = none →
        classifyColumn r = some
          { table := r.table_name, column := r.column_name
          , type_name := pyUpper r.data_type
          , issue := some "Unknown type mapping"
          , postgresql_type := none, note := none, severity := "HIGH" }) ∧
      (∀ pg alt note,
        typeLookup (pyUpper r.data_type) = some (pg, alt, note) →
        (containsStr note "Requires" = true →
          classifyColumn r = some
            { table := r.table_name, column := r.column_name
            , type_name := pyUpper r.data_type
            , issue := none, postgresql_type := some pg
            , note := some note, severity := "MEDIUM" }) ∧
        (containsStr note "Requires" = false →
          classifyColumn r = none)) := by
  intro r
  constructor
  · intro h
    simp [classifyColumn, h]
  · intro pg alt note h
    constructor
    · intro hr
      simp [classifyColumn, h, hr]
    · intro hr
      simp [classifyColumn, h, hr]

/-- Witness for C4: the three outcomes at the concrete columns named by the
claim — FOOBAR_CUSTOM_TYPE (HIGH), UNIQUEIDENTIFIER (MEDIUM with the
extension note), BIGINT (no issue). -/
theorem c4_type_trichotomy_witness :
    classifyColumn
        { table_name := "t", column_name := "c"
        , data_type := "FOOBAR_CUSTOM_TYPE" }
      = some
        { table := "t", column := "c"
        , type_name := pyUpper "FOOBAR_CUSTOM_TYPE"
        , issue := some "Unknown type mapping"
        , postgresql_type := none, note := none, severity := "HIGH" } ∧
    classifyColumn
        { table_name := "t", column_name := "c"
        , data_type := "UNIQUEIDENTIFIER" }
      = some
        { table := "t", column := "c"
        , type_name := pyUpper "UNIQUEIDENTIFIER"
        , issue := none, postgresql_type := some "UUID"
        , note := some "Requires extension", severity := "MEDIUM" } ∧
    classifyColumn
        { table_name := "t", column_name := "c", data_type := "BIGINT" }
      = none :=
  ⟨(c4_type_trichotomy _).1 (by decide),
   ((c4_type_trichotomy _).2 "UUID" "UUID" "Requires extension"
      (by decide)).1 (by decide),
   ((c4_type_trichotomy _).2 "BIGINT" "BIGINT" "Direct compatibility"
      (by decide)).2 (by decide)⟩

/-- C1: evaluation at the failing input. Two procedures are scanned, only
one is flagged, yet `total_procedures` comes out as 1 (the flagged count,
`len(sp_analysis)`), so the stored-procedure penalty is the full 20 and the
readiness score is 80 — not the 90 the claimed formula
`20 * flagged / scanned = 20 * 1 / 2` would give. -/
theorem c1_sp_penalty_at_failing_input :
    ([ { name := "p1", definition := some "DECLARE C CURSOR"
       , create_date := "", modify_date := "" }
     , { name := "p2", definition := some "SELECT 1"
       , create_date := "", modify_date := "" } ] : List ProcRow).length = 2 ∧
    (analyze_stored_procedures
      [ { name := "p1", definition := some "DECLARE C CURSOR"
        , create_date := "", modify_date := "" }
      , { name := "p2", definition := some "SELECT 1"
        , create_date := "", modify_date := "" } ]).total_procedures = 1 ∧
    (analyze_stored_procedures
      [ { name := "p1", definition := some "DECLARE C CURSOR"
        , create_date := "", modify_date := "" }
      , { name := "p2", definition := some "SELECT 1"
        , create_date := "", modify_date := "" } ]).procedures_with_issues = 1 ∧
    calculate_migration_score
      { schema_complexity := assess_schema_complexity
          { tables := 0, views := 0, stored_procedures := 2, triggers := 0
          , user_defined_types := 0, xml_schemas := 0, clr_assemblies := 0 }
      , stored_procedure_analysis := analyze_stored_procedures
          [ { name := "p1", definition := some "DECLARE C CURSOR"
            , create_date := "", modify_date := "" }
          , { name := "p2", definition := some "SELECT 1"
            , create_date := "", modify_date := "" } ]
      , data_type_analysis := analyze_data_types [] }
      = 100 - (2/5 : ℚ) * 0.3 - 20 := by
  refine ⟨by decide, by decide, by decide, ?_⟩
  have ht : (analyze_stored_procedures
      [ { name := "p1", definition := some "DECLARE C CURSOR"
        , create_date := "", modify_date := "" }
      , { name := "p2", definition := some "SELECT 1"
        , create_date := "", modify_date := "" } ]).total_procedures = 1 := by
    decide
  have hi : (analyze_stored_procedures
      [ { name := "p1", definition := some "DECLARE C CURSOR"
        , create_date := "", modify_date := "" }
      , { name := "p2", definition := some "SELECT 1"
        , create_date := "", modify_date := "" } ]).procedures_with_issues = 1 := by
    decide
  norm_num [calculate_migration_score, ht, hi, analyze_data_types,
    assess_schema_complexity, complexity_sum, min_def, max_def]

/-- C2 counterexample: complexity score 100, one procedure and it is
flagged, one column and it is flagged, 5 CLR assemblies — the readiness
score is 15, not the claimed clamped 0. -/
theorem c2_counterexample_score_is_15 :
    calculate_migration_score
        { schema_complexity := assess_schema_complexity
            { tables := 1000, views := 0, stored_procedures := 1000
            , triggers := 1000, user_defined_types := 1000
            , xml_schemas := 0, clr_assemblies := 5 }
        , stored_procedure_analysis := analyze_stored_procedures
            [ { name := "p", definition := some "DECLARE C CURSOR"
              , create_date := "", modify_date := "" } ]
        , data_type_analysis := analyze_data_types
            [ { table_name := "t", column_name := "c"
              , data_type := "FOOBAR_CUSTOM_TYPE" } ] } = 15 ∧
    calculate_migration_score
        { schema_complexity := assess_schema_complexity
            { tables := 1000, views := 0, stored_procedures := 1000
            , triggers := 1000, user_defined_types := 1000
            , xml_schemas := 0, clr_assemblies := 5 }
        , stored_procedure_analysis := analyze_stored_procedures
            [ { name := "p", definition := some "DECLARE C CURSOR"
              , create_date := "", modify_date := "" } ]
        , data_type_analysis := analyze_data_types
            [ { table_name := "t", column_name := "c"
              , data_type := "FOOBAR_CUSTOM_TYPE" } ] } ≠ 0 := by
  have ht : (analyze_stored_procedures
      [ { name := "p", definition := some "DECLARE C CURSOR"
        , create_date := "", modify_date := "" } ]).total_procedures = 1 := by
    decide
  have hi : (analyze_stored_procedures
      [ { name := "p", definition := some "DECLARE C CURSOR"
        , create_date := "", modify_date := "" } ]).procedures_with_issues = 1 := by
    decide
  have hc : (analyze_data_types
      [ { table_name := "t", column_name := "c"
        , data_type := "FOOBAR_CUSTOM_TYPE" } ]).total_columns_analyzed = 1 := by
    decide
  have hl : (analyze_data_types
      [ { table_name := "t", column_name := "c"
        , data_type := "FOOBAR_CUSTOM_TYPE" } ]).compatibility_issues.length
      = 1 := by
    decide
  constructor
  · norm_num [calculate_migration_score, ht, hi, hc, hl,
      assess_schema_complexity, complexity_sum, min_def, max_def]
  · norm_num [calculate_migration_score, ht, hi, hc, hl,
      assess_schema_complexity, complexity_sum, min_def, max_def]

/-- C2 amended: in any assessment with complexity score 100, every
procedure flagged (at least one procedure), every column flagged (at least
one column) and a CLR count of 5, the readiness score is exactly 15 — the
clamp to 0 is never reached — and the tier is REQUIRES_SIGNIFICANT_EFFORT. -/
theorem c2_extreme_assessment_score :
    ∀ a : AssessmentInputs,
      a.schema_complexity.complexity_score = 100 →
      a.schema_complexity.details.clr_assemblies = 5 →
      a.stored_procedure_analysis.procedures_with_issues
        = a.stored_procedure_analysis.total_procedures →
      0 < a.stored_procedure_analysis.total_procedures →
      a.data_type_analysis.compatibility_issues.length
        = a.data_type_analysis.total_columns_analyzed →
      0 < a.data_type_analysis.total_columns_analyzed →
      calculate_migration_score a = 15 ∧
      readiness_level (calculate_migration_score a)
        = "REQUIRES_SIGNIFICANT_EFFORT" := by
  intro a h100 hclr hsp hsp0 hty hty0
  have hrs : (a.stored_procedure_analysis.procedures_with_issues : ℚ)
      / (a.stored_procedure_analysis.total_procedures : ℚ) = 1 := by
    rw [hsp]
    exact div_self (by exact_mod_cast hsp0.ne')
  have hrt : (a.data_type_analysis.compatibility_issues.length : ℚ)
      / (a.data_type_analysis.total_columns_analyzed : ℚ) = 1 := by
    rw [hty]
    exact div_self (by exact_mod_cast hty0.ne')
  have hsp0' : a.stored_procedure_analysis.total_procedures > 0 := hsp0
  have hty0' : a.data_type_analysis.total_columns_analyzed > 0 := hty0
  have hs : calculate_migration_score a = 15 := by
    simp only [calculate_migration_score, h100, hclr, hrs, hrt, hsp0', hty0',
      if_true]
    norm_num [min_def, max_def]
  exact ⟨hs, by rw [hs]; norm_num [readiness_level]⟩

/-- Witness for C2: the hypotheses of `c2_extreme_assessment_score` hold at
the concrete pipeline outputs used in the counterexample. -/
theorem c2_extreme_assessment_score_witness :
    calculate_migration_score
        { schema_complexity := assess_schema_complexity
            { tables := 1000, views := 0, stored_procedures := 1000
            , triggers := 1000, user_defined_types := 1000
            , xml_schemas := 0, clr_assemblies := 5 }
        , stored_procedure_analysis := analyze_stored_procedures
            [ { name := "p", definition := some "DECLARE C CURSOR"
              , create_date := "", modify_date := "" } ]
        , data_type_analysis := analyze_data_types
            [ { table_name := "t", column_name := "c"
              , data_type := "FOOBAR_CUSTOM_TYPE" } ] } = 15 ∧
    readiness_level (calculate_migration_score
        { schema_complexity := assess_schema_complexity
            { tables := 1000, views := 0, stored_procedures := 1000
            , triggers := 1000, user_defined_types := 1000
            , xml_schemas := 0, clr_assemblies := 5 }
        , stored_procedure_analysis := analyze_stored_procedures
            [ { name := "p", definition := some "DECLARE C CURSOR"
              , create_date := "", modify_date := "" } ]
        , data_type_analysis := analyze_data_types
            [ { table_name := "t", column_name := "c"
              , data_type := "FOOBAR_CUSTOM_TYPE" } ] })
      = "REQUIRES_SIGNIFICANT_EFFORT" :=
  c2_extreme_assessment_score _
    (by norm_num [assess_schema_complexity, complexity_sum, min_def])
    rfl rfl (by decide) (by decide) (by decide)

/-- C6: every assessment built from the three analyzers scores at least 15:
the four penalties are bounded by 30, 20, 15 and 20, so the final clamp to
a minimum of 0 never changes the result. -/
theorem c6_readiness_score_at_least_15 :
    ∀ (counts : SchemaCounts) (procs : List ProcRow) (cols : List ColRow),
      15 ≤ calculate_migration_score
        { schema_complexity := assess_schema_complexity counts
        , stored_procedure_analysis := analyze_stored_procedures procs
        , data_type_analysis := analyze_data_types cols } := by
  intro counts procs cols
  have h1 : (assess_schema_complexity counts).complexity_score ≤ 100 :=
    min_le_right _ _
  have h2 : ((analyze_stored_procedures procs).procedures_with_issues : ℚ)
      / ((analyze_stored_procedures procs).total_procedures : ℚ) ≤ 1 := by
    have he : (analyze_stored_procedures procs).procedures_with_issues
        = (analyze_stored_procedures procs).total_procedures := rfl
    rw [he]
    rcases Nat.eq_zero_or_pos
        (analyze_stored_procedures procs).total_procedures with h0 | h0
    · simp [h0]
    · exact le_of_eq (div_self (by exact_mod_cast h0.ne'))
  have h3 : ((analyze_data_types cols).compatibility_issues.length : ℚ)
      / ((analyze_data_types cols).total_columns_analyzed : ℚ) ≤ 1 := by
    rcases Nat.eq_zero_or_pos
        (analyze_data_types cols).total_columns_analyzed with h0 | h0
    · simp [h0]
    · exact (div_le_one (by exact_mod_cast h0)).mpr
        (by exact_mod_cast analyze_data_types_issue_bound cols)
  have h4 : min (((assess_schema_complexity counts).details.clr_assemblies : ℚ)
      * 10) 20 ≤ 20 := min_le_right _ _
  simp only [calculate_migration_score]
  refine le_trans ?_ (le_max_left _ _)
  rw [show (0.3 : ℚ) = 3 / 10 by norm_num]
  split_ifs <;> linarith

end UC5
